import Mathlib

/-!
Shallow embedding of the EFI PCI configuration-space access layer
(`src/interface/efi/efi_pci.c`) of the iPXE repository, together with
theorems settling the specification claims about it.

The C file provides `efipci_address`, `efipci_read`, `efipci_write` and the
EFI binding of `pci_max_bus`.  The firmware substrate
(`EFI_PCI_ROOT_BRIDGE_IO_PROTOCOL`) is a parameter of the embedding: each
theorem quantifies over an arbitrary substrate, or instantiates a concrete
mock.  Macros whose definitions live in headers outside the given sources
(`EFIPCI_OFFSET`, `EFIPCI_WIDTH`, `EFI_PCI_ADDRESS`, the `pci_max_bus`
inline, error numbers) are modelled from the spec and documented as such.
-/

/-- EFI status word returned by the substrate: 0 is success, any other value
is a failure code. -/
abbrev EFI_STATUS := Nat

/-- Modelled from the spec: the Device Locator
`{bus: 0-255, device: 0-31, function: 0-7}`.  The source stores it packed in
`pci->busdevfn`, but `struct pci_device` and the `PCI_BUS`/`PCI_SLOT`/
`PCI_FUNC` accessors live in `include/ipxe/pci.h`, which is absent from the
given sources, so the locator is modelled as the spec's triple and field
projections stand in for the accessor macros. -/
structure pci_device where
  bus : Nat
  device : Nat
  func : Nat
deriving DecidableEq

/-- Width selector for a byte access, as passed to the substrate. -/
def EfiPciWidthUint8 : Nat := 0

/-- Width selector for a word access, as passed to the substrate. -/
def EfiPciWidthUint16 : Nat := 1

/-- Width selector for a dword access, as passed to the substrate. -/
def EfiPciWidthUint32 : Nat := 2

/-- Modelled from the spec: a Config Location as the raw offset carrying a
width tag (the `EFIPCI_LOCATION` packing of `include/ipxe/efi/efi_pci.h`,
which is absent from the given sources).  The register offset occupies the
low 16 bits and the width tag sits above them. -/
def EFIPCI_LOCATION (offset width : Nat) : Nat := offset + width * 65536

/-- Modelled from the spec: strips the width tag from the raw offset (the
`EFIPCI_OFFSET` macro, absent from the given sources), keeping only the
16-bit register offset. -/
def EFIPCI_OFFSET (location : Nat) : Nat := location % 65536

/-- Modelled from the spec: extracts the width tag of a Config Location (the
`EFIPCI_WIDTH` macro, absent from the given sources). -/
def EFIPCI_WIDTH (location : Nat) : Nat := location / 65536

/-- Modelled from the spec: the backend's Config Address packing — bus in
bits 23-16, device in bits 15-11, function in bits 10-8, register in bits
7-0 (the `EFI_PCI_ADDRESS` macro, whose header is absent from the given
sources). -/
def EFI_PCI_ADDRESS (bus dev fn reg : Nat) : Nat :=
  bus * 65536 + dev * 2048 + fn * 256 + reg

/-- Modelled from the spec: the generic transaction-failure error number
(`EIO` of `errno.h`, absent from the given sources). -/
def EIO_err : Nat := 5

/-- Modelled from the spec: the `NoDevice` error number (`ENODEV` of
`errno.h`, absent from the given sources). -/
def ENODEV : Nat := 19

/-- Modelled from the spec: the substrate status meaning "function not
available / not found / device absent" (`EFI_NOT_FOUND`: the high-bit error
flag with code 14; the EFI headers are absent from the given sources). -/
def EFI_NOT_FOUND : EFI_STATUS := 2 ^ 63 + 14

/-- Embedding of `efipci_address`: packs the locator's fields and the
width-stripped offset into the substrate's Config Address. -/
def efipci_address (pci : pci_device) (location : Nat) : Nat :=
  EFI_PCI_ADDRESS pci.bus pci.device pci.func (EFIPCI_OFFSET location)

/-- The `Pci` access pair of the bound `EFI_PCI_ROOT_BRIDGE_IO_PROTOCOL`
instance, as the embedding's substrate parameter.  Substrate state `σ` is
threaded explicitly; `Read` takes state, width, address and count and
returns the status, the value placed in the caller's buffer and the new
state; `Write` additionally takes the value to write. -/
structure PciRootBridgePci (σ : Type) where
  Read : σ → Nat → Nat → Nat → EFI_STATUS × Nat × σ
  Write : σ → Nat → Nat → Nat → Nat → EFI_STATUS × σ

/-- Record of one `DBG` diagnostic line emitted on failure.  Its fields are
exactly the data the source's format arguments carry: `PCI_ARGS ( pci )`
(bus, slot, function), `EFIPCI_OFFSET ( location )` and the status passed to
`efi_strerror`. -/
structure DbgRecord where
  bus : Nat
  device : Nat
  func : Nat
  offset : Nat
  status : EFI_STATUS
deriving DecidableEq

/-- Result of `efipci_read`: the returned status code, the contents of the
caller's `value` buffer, the diagnostic line (if any) and the substrate
state after the call. -/
structure ReadResult (σ : Type) where
  rc : Int
  value : Nat
  log : Option DbgRecord
  state : σ
deriving DecidableEq

/-- Result of `efipci_write`: the returned status code, the diagnostic line
(if any) and the substrate state after the call. -/
structure WriteResult (σ : Type) where
  rc : Int
  log : Option DbgRecord
  state : σ
deriving DecidableEq

/-- Embedding of `efipci_read`: one substrate `Read` with the location's
width, the encoded address and a count of 1; a non-zero status is logged and
mapped to `-EIO`, a zero status returns 0. -/
def efipci_read {σ : Type} (efipci : PciRootBridgePci σ) (s : σ)
    (pci : pci_device) (location : Nat) : ReadResult σ :=
  let r := efipci.Read s (EFIPCI_WIDTH location) (efipci_address pci location) 1
  if r.1 ≠ 0 then
    { rc := -(EIO_err : Int)
      value := r.2.1
      log := some { bus := pci.bus, device := pci.device, func := pci.func
                    offset := EFIPCI_OFFSET location, status := r.1 }
      state := r.2.2 }
  else
    { rc := 0, value := r.2.1, log := none, state := r.2.2 }

/-- Embedding of `efipci_write`: one substrate `Write` with the location's
width, the encoded address, a count of 1 and the value; a non-zero status is
logged and mapped to `-EIO`, a zero status returns 0. -/
def efipci_write {σ : Type} (efipci : PciRootBridgePci σ) (s : σ)
    (pci : pci_device) (location : Nat) (value : Nat) : WriteResult σ :=
  let r := efipci.Write s (EFIPCI_WIDTH location) (efipci_address pci location) 1 value
  if r.1 ≠ 0 then
    { rc := -(EIO_err : Int)
      log := some { bus := pci.bus, device := pci.device, func := pci.func
                    offset := EFIPCI_OFFSET location, status := r.1 }
      state := r.2 }
  else
    { rc := 0, log := none, state := r.2 }

/-- Modelled from the spec: the EFI Bus Limit Reporter
(`PCIAPI_INLINE ( efi, pci_max_bus )`, whose inline body lives in
`include/ipxe/efi/efi_pci.h`, absent from the given sources) returns the
architectural maximum bus number. -/
def pci_max_bus : Nat := 255

/-- One substrate transaction as observed by a tracing mock: the width,
address and count arguments of a `Read` or `Write` call. -/
structure PciCall where
  width : Nat
  address : Nat
  count : Nat
deriving DecidableEq

/-- Substrate instrumented to append every transaction it receives to a
trace; statuses and read values are given by the arbitrary behaviours `f`
(reads) and `g` (writes). -/
def tracingPci (f : Nat → Nat → Nat → EFI_STATUS × Nat)
    (g : Nat → Nat → Nat → Nat → EFI_STATUS) : PciRootBridgePci (List PciCall) where
  Read := fun s w a c => ((f w a c).1, (f w a c).2, s ++ [{ width := w, address := a, count := c }])
  Write := fun s w a c _v => (g w a c _v, s ++ [{ width := w, address := a, count := c }])

/-- Stateless mock substrate returning a constant status and read value. -/
def mockPci (status value : Nat) : PciRootBridgePci Unit where
  Read := fun s _w _a _c => (status, value, s)
  Write := fun s _w _a _c _v => (status, s)

/-- Decoder recovering the bus field (bits 23-16) of a Config Address. -/
def addr_bus (a : Nat) : Nat := a / 65536 % 256

/-- Decoder recovering the device field (bits 15-11) of a Config Address. -/
def addr_device (a : Nat) : Nat := a / 2048 % 32

/-- Decoder recovering the function field (bits 10-8) of a Config Address. -/
def addr_func (a : Nat) : Nat := a / 256 % 8

/-- Decoder recovering the register field (bits 7-0) of a Config Address. -/
def addr_reg (a : Nat) : Nat := a % 256

/-- Device Locator 00:00.0, used as a concrete input. -/
def pci0 : pci_device := { bus := 0, device := 0, func := 0 }

/-- C2: the reported result is success exactly when the substrate status is
0, and every substrate failure is surfaced as the typed error `-EIO` (which
is itself not success) — never suppressed, never a default value. -/
theorem efipci_rc_mirrors_status {σ : Type} (efipci : PciRootBridgePci σ) (s : σ)
    (pci : pci_device) (location value : Nat) :
    (efipci_read efipci s pci location).rc =
      (if (efipci.Read s (EFIPCI_WIDTH location) (efipci_address pci location) 1).1 = 0
        then 0 else -(EIO_err : Int)) ∧
    (efipci_write efipci s pci location value).rc =
      (if (efipci.Write s (EFIPCI_WIDTH location) (efipci_address pci location) 1 value).1 = 0
        then 0 else -(EIO_err : Int)) ∧
    -(EIO_err : Int) ≠ 0 := by
  refine ⟨?_, ?_, by decide⟩
  · by_cases h : (efipci.Read s (EFIPCI_WIDTH location) (efipci_address pci location) 1).1 = 0 <;>
      simp [efipci_read, h]
  · by_cases h : (efipci.Write s (EFIPCI_WIDTH location) (efipci_address pci location) 1 value).1 = 0 <;>
      simp [efipci_write, h]

/-- C1 counterexample: on a substrate reporting `EFI_NOT_FOUND` (device
absent), `efipci_read` returns the generic `-EIO`, not the `NoDevice` error
`-ENODEV` the claim requires. -/
theorem read_not_found_returns_eio_cex :
    (efipci_read (mockPci EFI_NOT_FOUND 0) () pci0
        (EFIPCI_LOCATION 0 EfiPciWidthUint8)).rc = -(EIO_err : Int) ∧
    (efipci_read (mockPci EFI_NOT_FOUND 0) () pci0
        (EFIPCI_LOCATION 0 EfiPciWidthUint8)).rc ≠ -(ENODEV : Int) := by
  decide

/-- C1 amended: a substrate status of `EFI_NOT_FOUND` on a read or a write
is translated exactly like every other failure, to the uniform `-EIO`, and
never to `-ENODEV`. -/
theorem not_found_maps_to_eio {σ : Type} (efipci : PciRootBridgePci σ) (s : σ)
    (pci : pci_device) (location value : Nat)
    (hr : (efipci.Read s (EFIPCI_WIDTH location) (efipci_address pci location) 1).1 =
      EFI_NOT_FOUND)
    (hw : (efipci.Write s (EFIPCI_WIDTH location) (efipci_address pci location) 1 value).1 =
      EFI_NOT_FOUND) :
    (efipci_read efipci s pci location).rc = -(EIO_err : Int) ∧
    (efipci_read efipci s pci location).rc ≠ -(ENODEV : Int) ∧
    (efipci_write efipci s pci location value).rc = -(EIO_err : Int) ∧
    (efipci_write efipci s pci location value).rc ≠ -(ENODEV : Int) := by
  have hr0 : (efipci.Read s (EFIPCI_WIDTH location) (efipci_address pci location) 1).1 ≠ 0 := by
    rw [hr]; decide
  have hw0 : (efipci.Write s (EFIPCI_WIDTH location)
      (efipci_address pci location) 1 value).1 ≠ 0 := by
    rw [hw]; decide
  refine ⟨?_, ?_, ?_, ?_⟩ <;> simp [efipci_read, efipci_write, hr0, hw0, EIO_err, ENODEV]

/-- C1 amended witness: the amended claim at a concrete not-found read and
write on slot 00:00.0, offset 4, word width. -/
theorem not_found_maps_to_eio_witness :
    (efipci_read (mockPci EFI_NOT_FOUND 0) () pci0
        (EFIPCI_LOCATION 4 EfiPciWidthUint16)).rc = -(EIO_err : Int) ∧
    (efipci_read (mockPci EFI_NOT_FOUND 0) () pci0
        (EFIPCI_LOCATION 4 EfiPciWidthUint16)).rc ≠ -(ENODEV : Int) ∧
    (efipci_write (mockPci EFI_NOT_FOUND 0) () pci0
        (EFIPCI_LOCATION 4 EfiPciWidthUint16) 7).rc = -(EIO_err : Int) ∧
    (efipci_write (mockPci EFI_NOT_FOUND 0) () pci0
        (EFIPCI_LOCATION 4 EfiPciWidthUint16) 7).rc ≠ -(ENODEV : Int) :=
  not_found_maps_to_eio (mockPci EFI_NOT_FOUND 0) () pci0
    (EFIPCI_LOCATION 4 EfiPciWidthUint16) 7 (by decide) (by decide)

/-- C3: any substrate status that is neither the success signal 0 nor
`EFI_NOT_FOUND` is translated to the uniform `-EIO` and never to success. -/
theorem other_status_maps_to_eio {σ : Type} (efipci : PciRootBridgePci σ) (s : σ)
    (pci : pci_device) (location value : Nat)
    (hr0 : (efipci.Read s (EFIPCI_WIDTH location) (efipci_address pci location) 1).1 ≠ 0)
    (hrn : (efipci.Read s (EFIPCI_WIDTH location) (efipci_address pci location) 1).1 ≠
      EFI_NOT_FOUND)
    (hw0 : (efipci.Write s (EFIPCI_WIDTH location)
      (efipci_address pci location) 1 value).1 ≠ 0)
    (hwn : (efipci.Write s (EFIPCI_WIDTH location)
      (efipci_address pci location) 1 value).1 ≠ EFI_NOT_FOUND) :
    (efipci_read efipci s pci location).rc = -(EIO_err : Int) ∧
    (efipci_read efipci s pci location).rc ≠ 0 ∧
    (efipci_write efipci s pci location value).rc = -(EIO_err : Int) ∧
    (efipci_write efipci s pci location value).rc ≠ 0 := by
  refine ⟨?_, ?_, ?_, ?_⟩ <;> simp [efipci_read, efipci_write, hr0, hw0, EIO_err]

/-- C3 witness: the claim at the concrete status 1 (`EFI_LOAD_ERROR`-class
failure, neither success nor not-found) on a read and a write. -/
theorem other_status_maps_to_eio_witness :
    (efipci_read (mockPci 1 0) () pci0
        (EFIPCI_LOCATION 8 EfiPciWidthUint32)).rc = -(EIO_err : Int) ∧
    (efipci_read (mockPci 1 0) () pci0
        (EFIPCI_LOCATION 8 EfiPciWidthUint32)).rc ≠ 0 ∧
    (efipci_write (mockPci 1 0) () pci0
        (EFIPCI_LOCATION 8 EfiPciWidthUint32) 3).rc = -(EIO_err : Int) ∧
    (efipci_write (mockPci 1 0) () pci0
        (EFIPCI_LOCATION 8 EfiPciWidthUint32) 3).rc ≠ 0 :=
  other_status_maps_to_eio (mockPci 1 0) () pci0 (EFIPCI_LOCATION 8 EfiPciWidthUint32) 3
    (by decide) (by decide) (by decide) (by decide)

/-- C4: the one substrate transaction of a read or a write carries the
Config Address built from the width-stripped offset only, while the width
tag is handed to the substrate as a separate first argument. -/
theorem address_width_stripped_width_separate
    (f : Nat → Nat → Nat → EFI_STATUS × Nat) (g : Nat → Nat → Nat → Nat → EFI_STATUS)
    (pci : pci_device) (location value : Nat) :
    (efipci_read (tracingPci f g) [] pci location).state =
      [{ width := EFIPCI_WIDTH location
         address := EFI_PCI_ADDRESS pci.bus pci.device pci.func (EFIPCI_OFFSET location)
         count := 1 }] ∧
    (efipci_write (tracingPci f g) [] pci location value).state =
      [{ width := EFIPCI_WIDTH location
         address := EFI_PCI_ADDRESS pci.bus pci.device pci.func (EFIPCI_OFFSET location)
         count := 1 }] := by
  constructor <;>
    · simp only [efipci_read, efipci_write, tracingPci, efipci_address]
      split <;> rfl

/-- C7: every read and write performs exactly one substrate transaction,
with a count of 1 and the declared width, whatever the substrate's status —
no retry on failure and no splitting into several transactions. -/
theorem exactly_one_transaction
    (f : Nat → Nat → Nat → EFI_STATUS × Nat) (g : Nat → Nat → Nat → Nat → EFI_STATUS)
    (s : List PciCall) (pci : pci_device) (location value : Nat) :
    (efipci_read (tracingPci f g) s pci location).state =
      s ++ [{ width := EFIPCI_WIDTH location, address := efipci_address pci location
              count := 1 }] ∧
    (efipci_write (tracingPci f g) s pci location value).state =
      s ++ [{ width := EFIPCI_WIDTH location, address := efipci_address pci location
              count := 1 }] := by
  constructor <;>
    · simp only [efipci_read, efipci_write, tracingPci]
      split <;> rfl

/-- C5 counterexample: a word access at the misaligned offset 0x01 (the
spec's own scenario) is encoded without any contract-violation signal:
`efipci_address` totally returns the address 1, whose register field is the
unaligned offset passed through unchanged (1 is odd, so nothing was rounded
or truncated). -/
theorem efipci_address_misaligned_cex :
    efipci_address pci0 (EFIPCI_LOCATION 1 EfiPciWidthUint16) = 1 ∧
    EFIPCI_OFFSET (EFIPCI_LOCATION 1 EfiPciWidthUint16) % 2 = 1 := by
  decide

/-- C5 amended: `efipci_address` performs no validation at all: it is a
total function that, for any bus and in-range device/function fields, embeds
any 8-bit register offset — aligned or not — unchanged into the register
field of the produced Config Address, with no truncation, rounding or
failure signal. -/
theorem efipci_address_no_validation (bus dev fn off w : Nat)
    (hd : dev ≤ 31) (hf : fn ≤ 7) (ho : off ≤ 255) :
    addr_reg (efipci_address { bus := bus, device := dev, func := fn }
      (EFIPCI_LOCATION off w)) = off := by
  have h1 : EFIPCI_OFFSET (EFIPCI_LOCATION off w) = off := by
    simp only [EFIPCI_OFFSET, EFIPCI_LOCATION]
    omega
  simp only [efipci_address, EFI_PCI_ADDRESS, addr_reg, h1]
  omega

/-- C5 amended witness: the amended claim at the misaligned word offset
0x01: the codec produces an address whose register field is still 1. -/
theorem efipci_address_no_validation_witness :
    addr_reg (efipci_address { bus := 0, device := 0, func := 0 }
      (EFIPCI_LOCATION 1 EfiPciWidthUint16)) = 1 :=
  efipci_address_no_validation 0 0 0 1 EfiPciWidthUint16
    (by decide) (by decide) (by decide)

/-- C6: over the valid domain (bus 0-255, device 0-31, function 0-7,
register offset 0-255) the encoding is invertible: decoding the Config
Address produced by `efipci_address` recovers the original bus, device,
function and register offset, for any width tag. -/
theorem efipci_address_roundtrip (bus dev fn off w : Nat)
    (hb : bus ≤ 255) (hd : dev ≤ 31) (hf : fn ≤ 7) (ho : off ≤ 255) :
    addr_bus (efipci_address { bus := bus, device := dev, func := fn }
      (EFIPCI_LOCATION off w)) = bus ∧
    addr_device (efipci_address { bus := bus, device := dev, func := fn }
      (EFIPCI_LOCATION off w)) = dev ∧
    addr_func (efipci_address { bus := bus, device := dev, func := fn }
      (EFIPCI_LOCATION off w)) = fn ∧
    addr_reg (efipci_address { bus := bus, device := dev, func := fn }
      (EFIPCI_LOCATION off w)) = off := by
  have h1 : EFIPCI_OFFSET (EFIPCI_LOCATION off w) = off := by
    simp only [EFIPCI_OFFSET, EFIPCI_LOCATION]
    omega
  simp only [efipci_address, EFI_PCI_ADDRESS, addr_bus, addr_device, addr_func, addr_reg, h1]
  refine ⟨?_, ?_, ?_, ?_⟩ <;> omega

/-- C6 witness: the round-trip at the concrete locator 03:1f.7, register
offset 0xfc, word width. -/
theorem efipci_address_roundtrip_witness :
    addr_bus (efipci_address { bus := 3, device := 31, func := 7 }
      (EFIPCI_LOCATION 252 EfiPciWidthUint16)) = 3 ∧
    addr_device (efipci_address { bus := 3, device := 31, func := 7 }
      (EFIPCI_LOCATION 252 EfiPciWidthUint16)) = 31 ∧
    addr_func (efipci_address { bus := 3, device := 31, func := 7 }
      (EFIPCI_LOCATION 252 EfiPciWidthUint16)) = 7 ∧
    addr_reg (efipci_address { bus := 3, device := 31, func := 7 }
      (EFIPCI_LOCATION 252 EfiPciWidthUint16)) = 252 :=
  efipci_address_roundtrip 3 31 7 252 EfiPciWidthUint16
    (by decide) (by decide) (by decide) (by decide)

/-- C8 counterexample: the diagnostic record of a failed byte read and of a
failed dword read at the same register offset are identical — and a record
is emitted — so the log cannot contain the access width that the claim says
it includes. -/
theorem log_omits_width_cex :
    (efipci_read (mockPci 1 0) () pci0 (EFIPCI_LOCATION 8 EfiPciWidthUint8)).log =
      (efipci_read (mockPci 1 0) () pci0 (EFIPCI_LOCATION 8 EfiPciWidthUint32)).log ∧
    EFIPCI_WIDTH (EFIPCI_LOCATION 8 EfiPciWidthUint8) ≠
      EFIPCI_WIDTH (EFIPCI_LOCATION 8 EfiPciWidthUint32) ∧
    (efipci_read (mockPci 1 0) () pci0 (EFIPCI_LOCATION 8 EfiPciWidthUint8)).log ≠ none := by
  decide

/-- C8 amended: every read or write that receives a non-success substrate
status logs, before translating the status, a diagnostic record carrying the
Device Locator (bus, device, function), the register offset and the backend
status — but not the access width. -/
theorem failure_logged_with_context {σ : Type} (efipci : PciRootBridgePci σ) (s : σ)
    (pci : pci_device) (location value : Nat)
    (hr : (efipci.Read s (EFIPCI_WIDTH location) (efipci_address pci location) 1).1 ≠ 0)
    (hw : (efipci.Write s (EFIPCI_WIDTH location)
      (efipci_address pci location) 1 value).1 ≠ 0) :
    (efipci_read efipci s pci location).log =
      some { bus := pci.bus, device := pci.device, func := pci.func
             offset := EFIPCI_OFFSET location
             status := (efipci.Read s (EFIPCI_WIDTH location)
               (efipci_address pci location) 1).1 } ∧
    (efipci_write efipci s pci location value).log =
      some { bus := pci.bus, device := pci.device, func := pci.func
             offset := EFIPCI_OFFSET location
             status := (efipci.Write s (EFIPCI_WIDTH location)
               (efipci_address pci location) 1 value).1 } := by
  constructor <;> simp [efipci_read, efipci_write, hr, hw]

/-- C8 amended witness: the amended claim at a concrete failing read and
write (status 1) on slot 00:00.0, offset 0x10, dword width. -/
theorem failure_logged_with_context_witness :
    (efipci_read (mockPci 1 0) () pci0 (EFIPCI_LOCATION 16 EfiPciWidthUint32)).log =
      some { bus := 0, device := 0, func := 0, offset := 16, status := 1 } ∧
    (efipci_write (mockPci 1 0) () pci0 (EFIPCI_LOCATION 16 EfiPciWidthUint32) 9).log =
      some { bus := 0, device := 0, func := 0, offset := 16, status := 1 } :=
  failure_logged_with_context (mockPci 1 0) () pci0 (EFIPCI_LOCATION 16 EfiPciWidthUint32) 9
    (by decide) (by decide)

/-- C9: the Bus Limit Reporter `pci_max_bus` returns a value within the
representable range of the Device Locator's bus field, 0-255. -/
theorem pci_max_bus_in_range : pci_max_bus ≤ 255 := by decide

/-- C10: the Config Address never depends on the width bits of the
location: two locations with the same width-stripped offset but different
width tags encode to the same address for any fixed locator. -/
theorem efipci_address_width_independent (pci : pci_device) (l1 l2 : Nat)
    (hoff : EFIPCI_OFFSET l1 = EFIPCI_OFFSET l2)
    (hw : EFIPCI_WIDTH l1 ≠ EFIPCI_WIDTH l2) :
    efipci_address pci l1 = efipci_address pci l2 := by
  simp [efipci_address, hoff]

/-- C10 witness: word and dword locations at offset 4 share their offset
bits, differ in their width bits, and encode to the same address. -/
theorem efipci_address_width_independent_witness :
    EFIPCI_OFFSET (EFIPCI_LOCATION 4 EfiPciWidthUint16) =
      EFIPCI_OFFSET (EFIPCI_LOCATION 4 EfiPciWidthUint32) ∧
    EFIPCI_WIDTH (EFIPCI_LOCATION 4 EfiPciWidthUint16) ≠
      EFIPCI_WIDTH (EFIPCI_LOCATION 4 EfiPciWidthUint32) ∧
    efipci_address pci0 (EFIPCI_LOCATION 4 EfiPciWidthUint16) =
      efipci_address pci0 (EFIPCI_LOCATION 4 EfiPciWidthUint32) :=
  ⟨by decide, by decide,
    efipci_address_width_independent pci0 (EFIPCI_LOCATION 4 EfiPciWidthUint16)
      (EFIPCI_LOCATION 4 EfiPciWidthUint32) (by decide) (by decide)⟩
